import Mathlib

/-!
Verification of the ShaftGear engineering calculation engine.

The definitions below are a shallow embedding of the calculation core of
the repository (modules/shaft_calculations.py, modules/gear_calculations.py,
modules/utils.py, modules/material_database.py).  Python floats are modelled
as real numbers; the Lewis form-factor table, whose entries are decimal
literals, is modelled over the rationals so that lookups evaluate exactly.
Safety factors, which the source represents as a float that can be the
IEEE infinity sentinel, are modelled in EReal (top = the sentinel).
Fallible evaluation (Python ZeroDivisionError) is modelled by checked
variants returning Option: none means the evaluation faults.
-/

namespace ShaftGear

/-- Category tags of MATERIALS_DATABASE entries (material_database.py). -/
inductive MaterialCategory
  | carbonSteel
  | alloySteel
  | stainlessSteel
  | castIron
  | aluminum
  | titanium
  | bronze
  | other
deriving DecidableEq

/-- One record of MATERIALS_DATABASE (material_database.py): the eight
material properties, SI units. -/
structure MaterialProps where
  yield_strength : ℝ
  ultimate_strength : ℝ
  elastic_modulus : ℝ
  poisson_ratio : ℝ
  density : ℝ
  fatigue_strength : ℝ
  hardness_hb : ℝ
  category : MaterialCategory

/-- MATERIALS_DATABASE entry for AISI 1045 Steel
(material_database.py lines 18-27). -/
noncomputable def AISI1045 : MaterialProps :=
  { yield_strength := 310e6
    ultimate_strength := 565e6
    elastic_modulus := 200e9
    poisson_ratio := 0.29
    density := 7850
    fatigue_strength := 282e6
    hardness_hb := 163
    category := MaterialCategory.carbonSteel }

/-- A degenerate zero-strength material record: not in the database, but
calculate_required_diameter accepts any property dict, so a zero yield
strength can reach it. -/
noncomputable def zeroStrengthMaterial : MaterialProps :=
  { yield_strength := 0
    ultimate_strength := 0
    elastic_modulus := 200e9
    poisson_ratio := 0.29
    density := 7850
    fatigue_strength := 0
    hardness_hb := 0
    category := MaterialCategory.other }

/-- Checked real division, modelling Python division: a ZeroDivisionError
(denominator exactly zero) is none. -/
noncomputable def pydiv (a b : ℝ) : Option ℝ :=
  if b = 0 then none else some (a / b)

/-- utils.py calculate_safety_factor: inf sentinel when applied_stress <= 0,
else material_strength / applied_stress. -/
noncomputable def calculate_safety_factor (applied_stress material_strength : ℝ) : EReal :=
  if applied_stress ≤ 0 then ⊤
  else ((material_strength / applied_stress : ℝ) : EReal)

/-- The bending stress probed by the hollow-shaft iteration of
calculate_required_diameter (shaft_calculations.py lines 117-119):
J = (pi/32)(d^4 - d_i^4), section modulus J/(d/2), stress = M_eq over that. -/
noncomputable def hollowStress (equivalent_moment inner_diameter diameter : ℝ) : ℝ :=
  let J := (Real.pi / 32) * (diameter ^ 4 - inner_diameter ^ 4)
  let section_modulus := J / (diameter / 2)
  equivalent_moment / section_modulus

/-- The bounded search loop of the hollow branch of
calculate_required_diameter (shaft_calculations.py lines 115-122):
at most fuel iterations; each iteration stops at the current diameter if
its stress is within the allowable, otherwise advances by 0.1. -/
noncomputable def hollowIter (equivalent_moment allowable_stress inner_diameter : ℝ) :
    ℕ → ℝ → ℝ
  | 0, diameter => diameter
  | fuel + 1, diameter =>
    if hollowStress equivalent_moment inner_diameter diameter ≤ allowable_stress then
      diameter
    else
      hollowIter equivalent_moment allowable_stress inner_diameter fuel (diameter + 0.1)

/-- shaft_calculations.py calculate_required_diameter (lines 104-124).
Solid branch: closed-form (32 M_eq / (pi sigma_allow))^(1/3); hollow branch:
the 100-iteration search starting at inner_diameter + 10; result scaled
by 1000. -/
noncomputable def calculate_required_diameter (torque bending_moment axial_force : ℝ)
    (material_props : MaterialProps) (safety_factor inner_diameter : ℝ) : ℝ :=
  let allowable_stress := material_props.yield_strength / safety_factor
  let equivalent_moment := Real.sqrt (bending_moment ^ 2 + (0.75 * torque) ^ 2)
  let diameter :=
    if inner_diameter = 0 then
      ((32 * equivalent_moment) / (Real.pi * allowable_stress)) ^ ((1 : ℝ) / 3)
    else
      hollowIter equivalent_moment allowable_stress inner_diameter 100 (inner_diameter + 10)
  diameter * 1000

/-- Checked variant of the hollow search loop: the two divisions of each
iteration (by d/2 and by the section modulus) fault on a zero denominator. -/
noncomputable def hollowIterChecked (equivalent_moment allowable_stress inner_diameter : ℝ) :
    ℕ → ℝ → Option ℝ
  | 0, diameter => some diameter
  | fuel + 1, diameter =>
    let J := (Real.pi / 32) * (diameter ^ 4 - inner_diameter ^ 4)
    (pydiv J (diameter / 2)).bind fun section_modulus =>
    (pydiv equivalent_moment section_modulus).bind fun stress =>
    if stress ≤ allowable_stress then
      some diameter
    else
      hollowIterChecked equivalent_moment allowable_stress inner_diameter fuel (diameter + 0.1)

/-- Checked variant of calculate_required_diameter: every division the
Python code performs is checked, so the result is none exactly when the
Python call raises ZeroDivisionError. -/
noncomputable def calculate_required_diameter_checked (torque bending_moment axial_force : ℝ)
    (material_props : MaterialProps) (safety_factor inner_diameter : ℝ) : Option ℝ :=
  (pydiv material_props.yield_strength safety_factor).bind fun allowable_stress =>
  let equivalent_moment := Real.sqrt (bending_moment ^ 2 + (0.75 * torque) ^ 2)
  (if inner_diameter = 0 then
      (pydiv (32 * equivalent_moment) (Real.pi * allowable_stress)).map
        (fun r => r ^ ((1 : ℝ) / 3))
    else
      hollowIterChecked equivalent_moment allowable_stress inner_diameter 100
        (inner_diameter + 10)).bind fun diameter =>
  some (diameter * 1000)

/-- shaft_calculations.py verify_shaft_diameter (lines 126-152).  Diameters
are scaled by 1/1000; section properties branch on solid vs hollow; each
stress division is guarded by a positivity test on its denominator; the
safety factor is the inf sentinel (top) when the von Mises equivalent
stress is not positive. -/
noncomputable def verify_shaft_diameter (outer_diameter inner_diameter torque bending_moment
    axial_force : ℝ) (material_props : MaterialProps) : EReal :=
  let od := outer_diameter / 1000
  let di := inner_diameter / 1000
  let area := if di = 0 then Real.pi * (od / 2) ^ 2
    else Real.pi * ((od / 2) ^ 2 - (di / 2) ^ 2)
  let I := if di = 0 then Real.pi * od ^ 4 / 64
    else Real.pi * (od ^ 4 - di ^ 4) / 64
  let J := if di = 0 then Real.pi * od ^ 4 / 32
    else Real.pi * (od ^ 4 - di ^ 4) / 32
  let axial_stress := if area > 0 then axial_force / area else 0
  let bending_stress := if I > 0 then bending_moment * (od / 2) / I else 0
  let shear_stress := if J > 0 then torque * (od / 2) / J else 0
  let equivalent_stress :=
    Real.sqrt ((axial_stress + bending_stress) ^ 2 + 3 * shear_stress ^ 2)
  if equivalent_stress > 0 then
    ((material_props.yield_strength / equivalent_stress : ℝ) : EReal)
  else ⊤

/-- Checked variant of verify_shaft_diameter: each stress division is
performed with checked division inside its positivity guard, so the result
is none exactly when the Python call would hit a division fault. -/
noncomputable def verify_shaft_diameter_checked (outer_diameter inner_diameter torque
    bending_moment axial_force : ℝ) (material_props : MaterialProps) : Option EReal :=
  let od := outer_diameter / 1000
  let di := inner_diameter / 1000
  let area := if di = 0 then Real.pi * (od / 2) ^ 2
    else Real.pi * ((od / 2) ^ 2 - (di / 2) ^ 2)
  let I := if di = 0 then Real.pi * od ^ 4 / 64
    else Real.pi * (od ^ 4 - di ^ 4) / 64
  let J := if di = 0 then Real.pi * od ^ 4 / 32
    else Real.pi * (od ^ 4 - di ^ 4) / 32
  (if area > 0 then pydiv axial_force area else some 0).bind fun axial_stress =>
  (if I > 0 then pydiv (bending_moment * (od / 2)) I else some 0).bind fun bending_stress =>
  (if J > 0 then pydiv (torque * (od / 2)) J else some 0).bind fun shear_stress =>
  let equivalent_stress :=
    Real.sqrt ((axial_stress + bending_stress) ^ 2 + 3 * shear_stress ^ 2)
  if equivalent_stress > 0 then
    (pydiv material_props.yield_strength equivalent_stress).map
      (fun sf => ((sf : ℝ) : EReal))
  else
    some ⊤

/-- gear_calculations.py show_tooth_strength_analysis, dynamic factor
(lines 181-188): three branches on the pitch-line velocity. -/
noncomputable def dynamic_factor_bending (v : ℝ) : ℝ :=
  if v ≤ 5 then 1.0
  else if v ≤ 10 then (5.56 + Real.sqrt v) / 5.56
  else (5.56 + Real.sqrt v) / 5.56

/-- gear_calculations.py show_contact_stress_analysis, dynamic factor
(lines 296-302): three branches on the pitch-line velocity. -/
noncomputable def dynamic_factor_contact (v : ℝ) : ℝ :=
  if v ≤ 5 then 1.0
  else if v ≤ 10 then (5.56 + Real.sqrt v) / 5.56
  else (5.56 + Real.sqrt v) / 5.56

/-- gear_calculations.py show_contact_stress_analysis, geometry factor
(lines 304-308): the simplified I, replaced by 0.1 when it is <= 0.
math.radians(x) is x * pi / 180. -/
noncomputable def geometry_factor (helix_angle gear_ratio : ℝ) : ℝ :=
  let I := (Real.cos (helix_angle * Real.pi / 180) * Real.sin (20 * Real.pi / 180)) / 2 *
    (gear_ratio / (gear_ratio + 1))
  if I ≤ 0 then 0.1 else I

/-- The lewis_factors table of gear_calculations.py (lines 151-157),
in the sorted key order the interpolation code uses. -/
def lewis_table : List (ℕ × ℚ) :=
  [(12, 0.245), (13, 0.261), (14, 0.277), (15, 0.290), (16, 0.296),
   (17, 0.303), (18, 0.309), (19, 0.314), (20, 0.322), (22, 0.331),
   (24, 0.337), (26, 0.346), (28, 0.353), (30, 0.359), (34, 0.371),
   (38, 0.384), (43, 0.397), (50, 0.409), (60, 0.422), (75, 0.435),
   (100, 0.447), (150, 0.460), (300, 0.472)]

/-- Exact-key lookup in lewis_factors (the membership test and indexing of
get_lewis_factor). -/
def lewis_lookup (teeth : ℕ) : Option ℚ :=
  (lewis_table.find? (fun p => p.1 == teeth)).map Prod.snd

/-- The linear-interpolation scan of get_lewis_factor (gear_calculations.py
lines 171-175): over consecutive table pairs, the first bracketing pair
interpolates y1 + (y2 - y1)(x - x1)/(x2 - x1); none if no pair brackets
(the path on which the Python function falls through returning None). -/
def interp_scan : List (ℕ × ℚ) → ℕ → Option ℚ
  | (t1, y1) :: (t2, y2) :: rest, teeth =>
    if t1 ≤ teeth ∧ teeth ≤ t2 then
      some (y1 + (y2 - y1) * ((teeth : ℚ) - (t1 : ℚ)) / ((t2 : ℚ) - (t1 : ℚ)))
    else interp_scan ((t2, y2) :: rest) teeth
  | _, _ => none

/-- gear_calculations.py get_lewis_factor (lines 159-175): exact table hit,
else clamp below the minimum key 12 or above the maximum key 300, else the
interpolation scan.  none models the Python None fall-through. -/
def get_lewis_factor (teeth : ℕ) : Option ℚ :=
  match lewis_lookup teeth with
  | some y => some y
  | none =>
    if teeth < 12 then lewis_lookup 12
    else if 300 < teeth then lewis_lookup 300
    else interp_scan lewis_table teeth

/-- The well-formedness relation between consecutive Lewis table entries:
keys strictly increase and values do not decrease. -/
def tableStep (p q : ℕ × ℚ) : Prop := p.1 < q.1 ∧ p.2 ≤ q.2

/-- The value produced by one bracketing step of the interpolation:
y1 + (y2 - y1)(x - t1)/(t2 - t1). -/
def interpVal (t1 t2 : ℕ) (y1 y2 : ℚ) (x : ℕ) : ℚ :=
  y1 + (y2 - y1) * ((x : ℚ) - (t1 : ℚ)) / ((t2 : ℚ) - (t1 : ℚ))

theorem lewis_table_chain : List.Chain' tableStep lewis_table := by
  norm_num [lewis_table, List.chain'_cons, tableStep]

theorem interp_scan_cons₂ (p q : ℕ × ℚ) (rest : List (ℕ × ℚ)) (x : ℕ) :
    interp_scan (p :: q :: rest) x =
      if p.1 ≤ x ∧ x ≤ q.1 then some (interpVal p.1 q.1 p.2 q.2 x)
      else interp_scan (q :: rest) x := by
  rcases p with ⟨t1, y1⟩
  rcases q with ⟨t2, y2⟩
  rfl

theorem interpVal_mono {t1 t2 : ℕ} {y1 y2 : ℚ} (ht : t1 < t2) (hy : y1 ≤ y2)
    {x x' : ℕ} (hx : x ≤ x') :
    interpVal t1 t2 y1 y2 x ≤ interpVal t1 t2 y1 y2 x' := by
  unfold interpVal
  have hd : (0 : ℚ) < (t2 : ℚ) - (t1 : ℚ) := by
    rw [sub_pos]
    exact_mod_cast ht
  have hnum : (y2 - y1) * ((x : ℚ) - (t1 : ℚ)) ≤ (y2 - y1) * ((x' : ℚ) - (t1 : ℚ)) := by
    apply mul_le_mul_of_nonneg_left _ (sub_nonneg.mpr hy)
    have : (x : ℚ) ≤ (x' : ℚ) := by exact_mod_cast hx
    linarith
  have := (div_le_div_iff_of_pos_right hd).mpr hnum
  linarith

theorem interpVal_left {t1 t2 : ℕ} (y1 y2 : ℚ) :
    interpVal t1 t2 y1 y2 t1 = y1 := by
  unfold interpVal
  rw [sub_self, mul_zero, zero_div, add_zero]

theorem interpVal_right {t1 t2 : ℕ} (y1 y2 : ℚ) (ht : t1 < t2) :
    interpVal t1 t2 y1 y2 t2 = y2 := by
  unfold interpVal
  have hd : ((t2 : ℚ) - (t1 : ℚ)) ≠ 0 := by
    rw [sub_ne_zero]
    exact_mod_cast ht.ne'
  field_simp

theorem interpVal_ge_left {t1 t2 : ℕ} {y1 y2 : ℚ} (ht : t1 < t2) (hy : y1 ≤ y2)
    {x : ℕ} (hx : t1 ≤ x) : y1 ≤ interpVal t1 t2 y1 y2 x := by
  have := interpVal_mono ht hy hx
  rw [interpVal_left y1 y2] at this
  exact this

theorem interpVal_le_right {t1 t2 : ℕ} {y1 y2 : ℚ} (ht : t1 < t2) (hy : y1 ≤ y2)
    {x : ℕ} (hx : x ≤ t2) : interpVal t1 t2 y1 y2 x ≤ y2 := by
  have := interpVal_mono ht hy hx
  rw [interpVal_right y1 y2 ht] at this
  exact this

theorem scan_ge_head (l : List (ℕ × ℚ)) (p : ℕ × ℚ) (x : ℕ) (y : ℚ)
    (hc : List.Chain' tableStep (p :: l)) (hpx : p.1 ≤ x)
    (hs : interp_scan (p :: l) x = some y) : p.2 ≤ y := by
  induction l generalizing p with
  | nil =>
    rcases p with ⟨t1, y1⟩
    simp [interp_scan] at hs
  | cons q rest ih =>
    obtain ⟨hpq, hc'⟩ := List.chain'_cons.mp hc
    rw [interp_scan_cons₂] at hs
    by_cases hb : p.1 ≤ x ∧ x ≤ q.1
    · rw [if_pos hb] at hs
      obtain rfl : interpVal p.1 q.1 p.2 q.2 x = y := Option.some.inj hs
      exact interpVal_ge_left hpq.1 hpq.2 hb.1
    · rw [if_neg hb] at hs
      have hqx : q.1 ≤ x := by
        push_neg at hb
        exact le_of_lt (hb hpx)
      exact le_trans hpq.2 (ih q hc' hqx hs)

theorem scan_isSome (p q : ℕ × ℚ) (rest : List (ℕ × ℚ)) (x : ℕ)
    (hc : List.Chain' tableStep (p :: q :: rest)) (hpx : p.1 ≤ x)
    (hub : ∃ r ∈ q :: rest, x ≤ r.1) :
    (interp_scan (p :: q :: rest) x).isSome := by
  induction rest generalizing p q with
  | nil =>
    obtain ⟨r, hr, hxr⟩ := hub
    rw [List.mem_singleton] at hr
    subst hr
    rw [interp_scan_cons₂, if_pos ⟨hpx, hxr⟩]
    rfl
  | cons r rest ih =>
    rw [interp_scan_cons₂]
    by_cases hb : p.1 ≤ x ∧ x ≤ q.1
    · rw [if_pos hb]; rfl
    · rw [if_neg hb]
      obtain ⟨hpq, hc'⟩ := List.chain'_cons.mp hc
      have hqx : q.1 ≤ x := by
        push_neg at hb
        exact le_of_lt (hb hpx)
      apply ih q r hc' hqx
      obtain ⟨r', hr', hxr'⟩ := hub
      rcases List.mem_cons.mp hr' with h | hmem
      · exact absurd ⟨hpx, h ▸ hxr'⟩ hb
      · exact ⟨r', hmem, hxr'⟩

theorem scan_mono (p q : ℕ × ℚ) (rest : List (ℕ × ℚ)) (x x' : ℕ) (y y' : ℚ)
    (hc : List.Chain' tableStep (p :: q :: rest)) (hpx : p.1 ≤ x) (hxx : x ≤ x')
    (hs : interp_scan (p :: q :: rest) x = some y)
    (hs' : interp_scan (p :: q :: rest) x' = some y') : y ≤ y' := by
  induction rest generalizing p q with
  | nil =>
    obtain ⟨hpq, -⟩ := List.chain'_cons.mp hc
    rw [interp_scan_cons₂] at hs hs'
    by_cases hb : p.1 ≤ x ∧ x ≤ q.1
    · rw [if_pos hb] at hs
      by_cases hb' : p.1 ≤ x' ∧ x' ≤ q.1
      · rw [if_pos hb'] at hs'
        obtain rfl := Option.some.inj hs
        obtain rfl := Option.some.inj hs'
        exact interpVal_mono hpq.1 hpq.2 hxx
      · rw [if_neg hb'] at hs'
        simp [interp_scan] at hs'
    · rw [if_neg hb] at hs
      simp [interp_scan] at hs
  | cons r rest ih =>
    obtain ⟨hpq, hc'⟩ := List.chain'_cons.mp hc
    rw [interp_scan_cons₂] at hs hs'
    by_cases hb' : p.1 ≤ x' ∧ x' ≤ q.1
    · have hb : p.1 ≤ x ∧ x ≤ q.1 := ⟨hpx, le_trans hxx hb'.2⟩
      rw [if_pos hb] at hs
      rw [if_pos hb'] at hs'
      obtain rfl := Option.some.inj hs
      obtain rfl := Option.some.inj hs'
      exact interpVal_mono hpq.1 hpq.2 hxx
    · rw [if_neg hb'] at hs'
      have hqx' : q.1 ≤ x' := by
        push_neg at hb'
        exact le_of_lt (hb' (le_trans hpx hxx))
      by_cases hb : p.1 ≤ x ∧ x ≤ q.1
      · rw [if_pos hb] at hs
        obtain rfl := Option.some.inj hs
        have h1 : interpVal p.1 q.1 p.2 q.2 x ≤ q.2 :=
          interpVal_le_right hpq.1 hpq.2 hb.2
        have h2 : q.2 ≤ y' := scan_ge_head (r :: rest) q x' y' hc' hqx' hs'
        exact le_trans h1 h2
      · rw [if_neg hb] at hs
        have hqx : q.1 ≤ x := by
          push_neg at hb
          exact le_of_lt (hb hpx)
        exact ih q r hc' hqx hs hs'

theorem lewis_lookup_none_of_gt_300 (t : ℕ) (ht : 300 < t) : lewis_lookup t = none := by
  unfold lewis_lookup
  rw [List.find?_eq_none.mpr]
  · rfl
  · intro p hp
    fin_cases hp <;> simp <;> omega

theorem lewis_f_eq_scan (t : ℕ) (h1 : 12 ≤ t) (h2 : t ≤ 300) :
    get_lewis_factor t = interp_scan lewis_table t := by
  unfold get_lewis_factor
  cases hl : lewis_lookup t with
  | none =>
    rw [if_neg (by omega), if_neg (by omega)]
  | some y =>
    obtain ⟨p, hfind, hp2⟩ := Option.map_eq_some'.mp hl
    have hmem : p ∈ lewis_table := List.mem_of_find?_eq_some hfind
    have hkey : p.1 = t := by
      have := List.find?_some hfind
      simpa using this
    subst hp2
    subst hkey
    fin_cases hmem <;>
      norm_num [lewis_table, interp_scan]

theorem lewis_scan_isSome (t : ℕ) (h1 : 12 ≤ t) (h2 : t ≤ 300) :
    (interp_scan lewis_table t).isSome := by
  have hc := lewis_table_chain
  unfold lewis_table at hc ⊢
  apply scan_isSome _ _ _ _ hc (by simpa using h1)
  exact ⟨(300, 0.472), by norm_num, h2⟩

/-- C6: the dynamic (velocity) factor of the bending analysis and of the
contact analysis agree for every pitch-line velocity; both equal 1.0 for
v below or at 5 m/s and (5.56 + sqrt v)/5.56 for every v above 5 m/s,
with no distinct high-speed branch. -/
theorem dynamic_factor_single_formula (v : ℝ) :
    dynamic_factor_bending v = dynamic_factor_contact v ∧
    (v ≤ 5 → dynamic_factor_bending v = 1) ∧
    (5 < v → dynamic_factor_bending v = (5.56 + Real.sqrt v) / 5.56) ∧
    (5 < v → dynamic_factor_contact v = (5.56 + Real.sqrt v) / 5.56) := by
  unfold dynamic_factor_bending dynamic_factor_contact
  refine ⟨by split_ifs <;> rfl, ?_, ?_, ?_⟩ <;>
    · intro h
      split_ifs <;> first | linarith | norm_num

/-- C6 witness: the characterization of the dynamic factor instantiated at
the concrete velocity 7 m/s. -/
theorem dynamic_factor_single_formula_witness :
    dynamic_factor_bending 7 = dynamic_factor_contact 7 ∧
    ((7 : ℝ) ≤ 5 → dynamic_factor_bending 7 = 1) ∧
    ((5 : ℝ) < 7 → dynamic_factor_bending 7 = (5.56 + Real.sqrt 7) / 5.56) ∧
    ((5 : ℝ) < 7 → dynamic_factor_contact 7 = (5.56 + Real.sqrt 7) / 5.56) :=
  dynamic_factor_single_formula 7

/-- C5 counterexample: at helix angle 0 and gear ratio 1 (both members 20
teeth, say) the geometry factor actually used in the contact-stress
computation is sin(20 deg)/4, which is below 0.1: the claimed floor
max(I, 0.1) does not hold, because the source replaces I only when I <= 0. -/
theorem geometry_factor_below_floor : geometry_factor 0 1 < 0.1 := by
  unfold geometry_factor
  have h0 : (0 : ℝ) * Real.pi / 180 = 0 := by ring
  have hx : (0 : ℝ) < 20 * Real.pi / 180 := by positivity
  have hxlt : 20 * Real.pi / 180 < 0.4 := by nlinarith [Real.pi_lt_d2]
  have hsin_pos : 0 < Real.sin (20 * Real.pi / 180) := by
    apply Real.sin_pos_of_pos_of_lt_pi hx
    nlinarith [Real.pi_gt_three]
  have hsin_lt : Real.sin (20 * Real.pi / 180) < 0.4 :=
    lt_trans (Real.sin_lt hx) hxlt
  rw [h0, Real.cos_zero]
  rw [if_neg (by push_neg; nlinarith)]
  nlinarith

/-- C5 amended: for every helix angle in [0, 45] degrees and every positive
gear ratio, the raw simplified geometry factor is strictly positive, so the
0.1 replacement branch (which fires only when the raw value is <= 0) never
engages: the value used in the contact-stress formula is exactly the raw
cos(helix) sin(20 deg)/2 * ratio/(ratio+1), and it is positive but not
floored at 0.1. -/
theorem geometry_factor_positive_guard (helix_angle gear_ratio : ℝ)
    (h0 : 0 ≤ helix_angle) (h45 : helix_angle ≤ 45) (hg : 0 < gear_ratio) :
    geometry_factor helix_angle gear_ratio =
      (Real.cos (helix_angle * Real.pi / 180) * Real.sin (20 * Real.pi / 180)) / 2 *
        (gear_ratio / (gear_ratio + 1)) ∧
    0 < geometry_factor helix_angle gear_ratio := by
  have hcos : 0 < Real.cos (helix_angle * Real.pi / 180) := by
    apply Real.cos_pos_of_mem_Ioo
    constructor
    · have : (0 : ℝ) ≤ helix_angle * Real.pi / 180 := by positivity
      nlinarith [Real.pi_pos]
    · nlinarith [Real.pi_pos]
  have hx : (0 : ℝ) < 20 * Real.pi / 180 := by positivity
  have hsin_pos : 0 < Real.sin (20 * Real.pi / 180) := by
    apply Real.sin_pos_of_pos_of_lt_pi hx
    nlinarith [Real.pi_gt_three]
  have hfrac : 0 < gear_ratio / (gear_ratio + 1) := by
    apply div_pos hg; linarith
  have hraw : 0 < (Real.cos (helix_angle * Real.pi / 180) *
      Real.sin (20 * Real.pi / 180)) / 2 * (gear_ratio / (gear_ratio + 1)) := by
    apply mul_pos _ hfrac
    positivity
  unfold geometry_factor
  rw [if_neg (not_le.mpr hraw)]
  exact ⟨rfl, hraw⟩

/-- C5 amended, witness: the guard characterization instantiated at helix
angle 30 degrees and gear ratio 2. -/
theorem geometry_factor_positive_guard_witness :
    geometry_factor 30 2 =
      (Real.cos (30 * Real.pi / 180) * Real.sin (20 * Real.pi / 180)) / 2 *
        (2 / (2 + 1)) ∧
    0 < geometry_factor 30 2 :=
  geometry_factor_positive_guard 30 2 (by norm_num) (by norm_num) (by norm_num)

/-- C9: with all loads zero the von Mises equivalent stress is exactly zero,
and then both verify_shaft_diameter and calculate_safety_factor return the
unbounded sentinel (top, modelling the float inf), for any positive yield
strength, through their guarded branches rather than a division fault. -/
theorem safety_factor_sentinel_at_zero_stress (outer_diameter inner_diameter : ℝ)
    (material_props : MaterialProps) (_hy : 0 < material_props.yield_strength) :
    verify_shaft_diameter outer_diameter inner_diameter 0 0 0 material_props = ⊤ ∧
    calculate_safety_factor 0 material_props.yield_strength = ⊤ := by
  constructor
  · unfold verify_shaft_diameter
    norm_num [Real.sqrt_zero]
  · unfold calculate_safety_factor
    rw [if_pos le_rfl]

/-- C9 witness: the sentinel result at a concrete 50 mm solid shaft of
AISI 1045 steel with zero loads. -/
theorem safety_factor_sentinel_at_zero_stress_witness :
    verify_shaft_diameter 50 0 0 0 0 AISI1045 = ⊤ ∧
    calculate_safety_factor 0 AISI1045.yield_strength = ⊤ :=
  safety_factor_sentinel_at_zero_stress 50 0 AISI1045 (by norm_num [AISI1045])

/-- C7: the Lewis form factor lookup returns exactly the table value at
every table key (in particular 0.322 at 20 teeth), returns the value at 12
(0.245) for every tooth count below 12, and the value at 300 (0.472) for
every tooth count above 300. -/
theorem lewis_factor_table_and_clamp :
    get_lewis_factor 20 = some 0.322 ∧
    (∀ p ∈ lewis_table, get_lewis_factor p.1 = some p.2) ∧
    (∀ t : ℕ, t < 12 → get_lewis_factor t = some 0.245) ∧
    (∀ t : ℕ, 300 < t → get_lewis_factor t = some 0.472) := by
  refine ⟨?_, ?_, ?_, ?_⟩
  · norm_num [get_lewis_factor, lewis_lookup, lewis_table, List.find?_cons]
  · intro p hp
    fin_cases hp <;> norm_num [get_lewis_factor, lewis_lookup, lewis_table, List.find?_cons]
  · intro t ht
    interval_cases t <;> norm_num [get_lewis_factor, lewis_lookup, lewis_table, List.find?_cons]
  · intro t ht
    unfold get_lewis_factor
    rw [lewis_lookup_none_of_gt_300 t ht]
    rw [if_neg (by omega), if_pos ht]
    norm_num [lewis_lookup, lewis_table, List.find?_cons]

/-- C8: over the whole table domain 12..300 the Lewis form factor function
(with linear interpolation between bracketing table entries) is defined and
monotonically non-decreasing in the tooth count. -/
theorem lewis_factor_monotone (t1 t2 : ℕ) (ha : 12 ≤ t1) (hb : t1 ≤ t2) (hc : t2 ≤ 300) :
    ∃ y1 y2 : ℚ, get_lewis_factor t1 = some y1 ∧ get_lewis_factor t2 = some y2 ∧
      y1 ≤ y2 := by
  obtain ⟨y1, hy1⟩ := Option.isSome_iff_exists.mp (lewis_scan_isSome t1 ha (le_trans hb hc))
  obtain ⟨y2, hy2⟩ := Option.isSome_iff_exists.mp (lewis_scan_isSome t2 (le_trans ha hb) hc)
  refine ⟨y1, y2, ?_, ?_, ?_⟩
  · rw [lewis_f_eq_scan t1 ha (le_trans hb hc)]; exact hy1
  · rw [lewis_f_eq_scan t2 (le_trans ha hb) hc]; exact hy2
  · revert hy1 hy2
    unfold lewis_table
    intro hy1 hy2
    exact scan_mono _ _ _ t1 t2 y1 y2
      (by simpa [lewis_table] using lewis_table_chain) (by simpa using ha) hb hy1 hy2

/-- C8 witness: monotonicity instantiated at the interpolated (non-key)
tooth counts 21 and 23. -/
theorem lewis_factor_monotone_witness :
    ∃ y1 y2 : ℚ, get_lewis_factor 21 = some y1 ∧ get_lewis_factor 23 = some y2 ∧
      y1 ≤ y2 :=
  lewis_factor_monotone 21 23 (by norm_num) (by norm_num) (by norm_num)

theorem pydiv_of_pos {b : ℝ} (hb : 0 < b) (a : ℝ) : pydiv a b = some (a / b) := by
  unfold pydiv
  rw [if_neg (ne_of_gt hb)]

theorem hollowIter_succ (M A i d : ℝ) (fuel : ℕ) :
    hollowIter M A i (fuel + 1) d =
      if hollowStress M i d ≤ A then d else hollowIter M A i fuel (d + 0.1) := rfl

theorem hollowIter_spec (M A i : ℝ) (fuel : ℕ) : ∀ d0 : ℝ,
    ∃ k : ℕ, k ≤ fuel ∧
      hollowIter M A i fuel d0 = d0 + 0.1 * k ∧
      (∀ j : ℕ, j < k → ¬ hollowStress M i (d0 + 0.1 * j) ≤ A) ∧
      (k < fuel → hollowStress M i (d0 + 0.1 * k) ≤ A) := by
  induction fuel with
  | zero =>
    intro d0
    exact ⟨0, le_refl 0, by simp [hollowIter], by omega, by omega⟩
  | succ n ih =>
    intro d0
    by_cases h : hollowStress M i d0 ≤ A
    · refine ⟨0, Nat.zero_le _, ?_, by omega, fun _ => ?_⟩
      · rw [hollowIter_succ, if_pos h]
        push_cast
        ring
      · simpa using h
    · obtain ⟨k, hk, heq, hall, hlast⟩ := ih (d0 + 0.1)
      refine ⟨k + 1, by omega, ?_, ?_, ?_⟩
      · rw [hollowIter_succ, if_neg h, heq]
        push_cast
        ring
      · intro j hj
        cases j with
        | zero => simpa using h
        | succ m =>
          have hm := hall m (by omega)
          have harg : d0 + 0.1 * ((m + 1 : ℕ) : ℝ) = d0 + 0.1 + 0.1 * (m : ℕ) := by
            push_cast
            ring
          rw [harg]
          exact hm
      · intro hklt
        have hl := hlast (by omega)
        have harg : d0 + 0.1 * ((k + 1 : ℕ) : ℝ) = d0 + 0.1 + 0.1 * (k : ℕ) := by
          push_cast
          ring
        rw [harg]
        exact hl

/-- C2: for the hollow case the solver is a bounded iteration, never an
unbounded loop: there is a step count k at most 100 such that the result is
the start diameter inner + 10 advanced k fixed steps of 0.1 (scaled by
1000 on return), every earlier candidate had stress above the allowable
stress, and if the cap was not reached the returned candidate is the first
whose stress is within the allowable. -/
theorem hollow_solver_bounded (torque bending_moment axial_force : ℝ)
    (material_props : MaterialProps) (safety_factor inner_diameter : ℝ)
    (h : 0 < inner_diameter) :
    ∃ k : ℕ, k ≤ 100 ∧
      calculate_required_diameter torque bending_moment axial_force material_props
          safety_factor inner_diameter
        = (inner_diameter + 10 + 0.1 * k) * 1000 ∧
      (∀ j : ℕ, j < k →
        ¬ hollowStress (Real.sqrt (bending_moment ^ 2 + (0.75 * torque) ^ 2))
            inner_diameter (inner_diameter + 10 + 0.1 * j)
          ≤ material_props.yield_strength / safety_factor) ∧
      (k < 100 →
        hollowStress (Real.sqrt (bending_moment ^ 2 + (0.75 * torque) ^ 2))
            inner_diameter (inner_diameter + 10 + 0.1 * k)
          ≤ material_props.yield_strength / safety_factor) := by
  obtain ⟨k, hk, heq, hall, hlast⟩ :=
    hollowIter_spec (Real.sqrt (bending_moment ^ 2 + (0.75 * torque) ^ 2))
      (material_props.yield_strength / safety_factor) inner_diameter 100
      (inner_diameter + 10)
  refine ⟨k, hk, ?_, ?_, ?_⟩
  · simp only [calculate_required_diameter]
    rw [if_neg h.ne', heq]
  · exact hall
  · exact hlast

/-- C2 witness: the bounded-iteration characterization at the concrete
hollow input torque 1000, bending moment 500, AISI 1045, safety factor 2,
inner diameter 20. -/
theorem hollow_solver_bounded_witness :
    ∃ k : ℕ, k ≤ 100 ∧
      calculate_required_diameter 1000 500 0 AISI1045 2 20
        = ((20 : ℝ) + 10 + 0.1 * k) * 1000 ∧
      (∀ j : ℕ, j < k →
        ¬ hollowStress (Real.sqrt ((500 : ℝ) ^ 2 + (0.75 * 1000) ^ 2)) 20 (20 + 10 + 0.1 * j)
          ≤ AISI1045.yield_strength / 2) ∧
      (k < 100 →
        hollowStress (Real.sqrt ((500 : ℝ) ^ 2 + (0.75 * 1000) ^ 2)) 20 (20 + 10 + 0.1 * k)
          ≤ AISI1045.yield_strength / 2) :=
  hollow_solver_bounded 1000 500 0 AISI1045 2 20 (by norm_num)

theorem guarded_div_eq (c : Prop) [Decidable c] (a b : ℝ) (h : c → 0 < b) :
    (if c then pydiv a b else some 0) = some (if c then a / b else 0) := by
  by_cases hc : c
  · rw [if_pos hc, if_pos hc, pydiv_of_pos (h hc)]
  · rw [if_neg hc, if_neg hc]

theorem verify_checked_ok (outer_diameter inner_diameter torque bending_moment
    axial_force : ℝ) (material_props : MaterialProps) :
    verify_shaft_diameter_checked outer_diameter inner_diameter torque bending_moment
        axial_force material_props
      = some (verify_shaft_diameter outer_diameter inner_diameter torque bending_moment
        axial_force material_props) := by
  simp only [verify_shaft_diameter_checked, verify_shaft_diameter]
  rw [guarded_div_eq _ _ _ (fun hc => hc), guarded_div_eq _ _ _ (fun hc => hc),
    guarded_div_eq _ _ _ (fun hc => hc)]
  simp only [Option.some_bind]
  generalize Real.sqrt _ = s
  by_cases hs : s > 0
  · rw [if_pos hs, if_pos hs, pydiv_of_pos hs]
    rfl
  · rw [if_neg hs, if_neg hs]

theorem verify_pos (outer_diameter inner_diameter torque bending_moment
    axial_force : ℝ) (material_props : MaterialProps)
    (hy : 0 < material_props.yield_strength) :
    verify_shaft_diameter outer_diameter inner_diameter torque bending_moment
        axial_force material_props = ⊤ ∨
      ∃ s : ℝ, 0 < s ∧
        verify_shaft_diameter outer_diameter inner_diameter torque bending_moment
          axial_force material_props = ((s : ℝ) : EReal) := by
  simp only [verify_shaft_diameter]
  split_ifs <;>
    first
      | exact Or.inl rfl
      | exact Or.inr ⟨_, div_pos hy (by assumption), rfl⟩

/-- C10: verify_shaft_diameter is total on its public interface: for every
valid input its checked evaluation, in which every division the code
performs is performed with checked division, returns without a fault and
agrees with the plain embedding, and the returned safety factor is either
the infinity sentinel (top) or a positive real. -/
theorem verify_total_on_interface (outer_diameter inner_diameter torque bending_moment
    axial_force : ℝ) (material_props : MaterialProps)
    (hod : 0 < outer_diameter) (hid : 0 ≤ inner_diameter)
    (hlt : inner_diameter < outer_diameter) (ht : 0 ≤ torque) (hm : 0 ≤ bending_moment)
    (hf : 0 ≤ axial_force) (hy : 0 < material_props.yield_strength) :
    verify_shaft_diameter_checked outer_diameter inner_diameter torque bending_moment
        axial_force material_props
      = some (verify_shaft_diameter outer_diameter inner_diameter torque bending_moment
        axial_force material_props) ∧
    (verify_shaft_diameter outer_diameter inner_diameter torque bending_moment
        axial_force material_props = ⊤ ∨
      ∃ s : ℝ, 0 < s ∧
        verify_shaft_diameter outer_diameter inner_diameter torque bending_moment
          axial_force material_props = ((s : ℝ) : EReal)) :=
  ⟨verify_checked_ok outer_diameter inner_diameter torque bending_moment axial_force
      material_props,
    verify_pos outer_diameter inner_diameter torque bending_moment axial_force
      material_props hy⟩

/-- C10 witness: totality at the concrete input of a 50 mm solid AISI 1045
shaft under torque 1000 and bending moment 500. -/
theorem verify_total_on_interface_witness :
    verify_shaft_diameter_checked 50 0 1000 500 0 AISI1045
      = some (verify_shaft_diameter 50 0 1000 500 0 AISI1045) ∧
    (verify_shaft_diameter 50 0 1000 500 0 AISI1045 = ⊤ ∨
      ∃ s : ℝ, 0 < s ∧ verify_shaft_diameter 50 0 1000 500 0 AISI1045 = ((s : ℝ) : EReal)) :=
  verify_total_on_interface 50 0 1000 500 0 AISI1045 (by norm_num) (by norm_num)
    (by norm_num) (by norm_num) (by norm_num) (by norm_num) (by norm_num [AISI1045])

/-- C3, code evidence: at a zero-strength material (allowable stress 0) the
checked evaluation of calculate_required_diameter on a solid shaft reaches
the unguarded division by pi times the allowable stress and faults (none,
modelling the bare Python ZeroDivisionError); no InvalidInputError guard
exists in the code. -/
theorem zero_allowable_stress_faults :
    calculate_required_diameter_checked 1000 500 0 zeroStrengthMaterial 2 0 = none := by
  simp only [calculate_required_diameter_checked, zeroStrengthMaterial]
  rw [show pydiv (0 : ℝ) 2 = some 0 by rw [pydiv_of_pos (by norm_num)]; norm_num]
  simp only [Option.some_bind, if_pos rfl]
  rw [show Real.pi * 0 = 0 by ring]
  unfold pydiv
  rw [if_pos rfl]
  rfl

theorem rpow_third_cube {x : ℝ} (hx : 0 ≤ x) : (x ^ ((1 : ℝ) / 3)) ^ (3 : ℕ) = x := by
  rw [← Real.rpow_natCast (x ^ ((1 : ℝ) / 3)) 3, ← Real.rpow_mul hx]
  norm_num

theorem lt_rpow_third {a x : ℝ} (hx : 0 ≤ x) (ha : 0 ≤ a) (h : a ^ (3 : ℕ) < x) :
    a < x ^ ((1 : ℝ) / 3) := by
  by_contra hc
  push_neg at hc
  have h2 : x ≤ a ^ (3 : ℕ) := by
    calc x = (x ^ ((1 : ℝ) / 3)) ^ (3 : ℕ) := (rpow_third_cube hx).symm
    _ ≤ a ^ (3 : ℕ) := pow_le_pow_left₀ (Real.rpow_nonneg hx _) hc 3
  linarith

theorem rpow_third_lt {b x : ℝ} (hx : 0 ≤ x) (hb : 0 ≤ b) (h : x < b ^ (3 : ℕ)) :
    x ^ ((1 : ℝ) / 3) < b := by
  by_contra hc
  push_neg at hc
  have h2 : b ^ (3 : ℕ) ≤ x := by
    calc b ^ (3 : ℕ) ≤ (x ^ ((1 : ℝ) / 3)) ^ (3 : ℕ) := pow_le_pow_left₀ hb hc 3
    _ = x := rpow_third_cube hx
  linarith

theorem roundtrip_solid_value (torque bending_moment : ℝ) (mat : MaterialProps)
    (sf : ℝ) (hT : 0 ≤ torque) (hM : 0 ≤ bending_moment)
    (hy : 0 < mat.yield_strength) (hsf : 0 < sf)
    (hpos : 0 < bending_moment ^ 2 + (0.75 * torque) ^ 2) :
    verify_shaft_diameter
        (calculate_required_diameter torque bending_moment 0 mat sf 0)
        0 torque bending_moment 0 mat
      = ((2 * sf * Real.sqrt (bending_moment ^ 2 + (0.75 * torque) ^ 2) /
          Real.sqrt (4 * bending_moment ^ 2 + 3 * torque ^ 2) : ℝ) : EReal) := by
  have hMeq : 0 < Real.sqrt (bending_moment ^ 2 + (0.75 * torque) ^ 2) :=
    Real.sqrt_pos.mpr hpos
  have hσa : 0 < mat.yield_strength / sf := div_pos hy hsf
  have hr : 0 < (32 * Real.sqrt (bending_moment ^ 2 + (0.75 * torque) ^ 2)) /
      (Real.pi * (mat.yield_strength / sf)) := by
    apply div_pos (by positivity) (by positivity)
  set Meq := Real.sqrt (bending_moment ^ 2 + (0.75 * torque) ^ 2) with hMeq_def
  set r := (32 * Meq) / (Real.pi * (mat.yield_strength / sf)) with hr_def
  set d := r ^ ((1 : ℝ) / 3) with hd_def
  have hd : 0 < d := Real.rpow_pos_of_pos hr _
  have hd3 : d ^ (3 : ℕ) = r := rpow_third_cube hr.le
  have hπ : (Real.pi : ℝ) ≠ 0 := Real.pi_ne_zero
  have hdne : d ≠ 0 := hd.ne'
  have hcalc : calculate_required_diameter torque bending_moment 0 mat sf 0 = d * 1000 := by
    simp only [calculate_required_diameter, if_true]
  rw [hcalc]
  simp only [verify_shaft_diameter]
  rw [show d * 1000 / 1000 = d from by ring,
    show (0 : ℝ) / 1000 = 0 from by norm_num]
  rw [if_pos (rfl : (0 : ℝ) = 0), if_pos (rfl : (0 : ℝ) = 0), if_pos (rfl : (0 : ℝ) = 0)]
  rw [if_pos (show Real.pi * (d / 2) ^ 2 > 0 by positivity),
    if_pos (show Real.pi * d ^ 4 / 64 > 0 by positivity),
    if_pos (show Real.pi * d ^ 4 / 32 > 0 by positivity)]
  have hb : bending_moment * (d / 2) / (Real.pi * d ^ 4 / 64)
      = 32 * bending_moment / (Real.pi * d ^ 3) := by
    field_simp
    ring
  have hsh : torque * (d / 2) / (Real.pi * d ^ 4 / 32)
      = 16 * torque / (Real.pi * d ^ 3) := by
    field_simp
    ring
  rw [hb, hsh, zero_div, zero_add]
  have hsum : (32 * bending_moment / (Real.pi * d ^ 3)) ^ 2 +
      3 * (16 * torque / (Real.pi * d ^ 3)) ^ 2
      = (16 / (Real.pi * d ^ 3)) ^ 2 * (4 * bending_moment ^ 2 + 3 * torque ^ 2) := by
    field_simp
    ring
  rw [hsum, Real.sqrt_mul (sq_nonneg _),
    Real.sqrt_sq (by positivity : (0:ℝ) ≤ 16 / (Real.pi * d ^ 3))]
  have h43 : 0 < 4 * bending_moment ^ 2 + 3 * torque ^ 2 := by nlinarith
  have hS : 0 < Real.sqrt (4 * bending_moment ^ 2 + 3 * torque ^ 2) :=
    Real.sqrt_pos.mpr h43
  set S := Real.sqrt (4 * bending_moment ^ 2 + 3 * torque ^ 2) with hS_def
  rw [if_pos (show 16 / (Real.pi * d ^ 3) * S > 0 by positivity)]
  norm_cast
  have hπd3 : Real.pi * d ^ 3 = 32 * Meq * sf / mat.yield_strength := by
    have hpr : Real.pi * r = 32 * Meq * sf / mat.yield_strength := by
      rw [hr_def]
      field_simp [hy.ne', hsf.ne']
      ring
    rw [← hpr, ← hd3]
  rw [hπd3]
  rw [div_eq_div_iff (ne_of_gt (by positivity)) hS.ne']
  field_simp [hy.ne']
  ring

/-- C1 counterexample: at the spec's own example (solid shaft, torque 1000,
bending moment 500, AISI 1045, requested safety factor 2) the verified
safety factor of the solved diameter is 2 sqrt(0.8125), about 1.80, strictly
below the requested 2: the round-trip claim fails whenever torque > 0,
because the solver sizes with M_eq = sqrt(M^2 + (0.75 T)^2) while the
verifier checks von Mises sqrt(M^2 + 0.75 T^2). -/
theorem roundtrip_counterexample :
    verify_shaft_diameter (calculate_required_diameter 1000 500 0 AISI1045 2 0)
        0 1000 500 0 AISI1045
      < ((2 : ℝ) : EReal) := by
  rw [roundtrip_solid_value 1000 500 AISI1045 2 (by norm_num) (by norm_num)
    (by norm_num [AISI1045]) (by norm_num) (by norm_num)]
  rw [EReal.coe_lt_coe_iff]
  have h1 : Real.sqrt (4 * (500 : ℝ) ^ 2 + 3 * 1000 ^ 2) = 2000 := by
    rw [show (4 * (500 : ℝ) ^ 2 + 3 * 1000 ^ 2) = 2000 ^ 2 by norm_num,
      Real.sqrt_sq (by norm_num)]
  have h2 : Real.sqrt ((500 : ℝ) ^ 2 + (0.75 * 1000) ^ 2) < 1000 := by
    rw [show ((500 : ℝ) ^ 2 + (0.75 * 1000) ^ 2) = 812500 by norm_num]
    have h := Real.sqrt_lt_sqrt (by norm_num : (0:ℝ) ≤ 812500)
      (show (812500 : ℝ) < 1000 ^ 2 by norm_num)
    rwa [Real.sqrt_sq (by norm_num)] at h
  rw [h1]
  rw [div_lt_iff (by norm_num)]
  nlinarith [h2]

/-- C1 amended: for solid shafts (inner diameter 0, axial force 0) the
verified safety factor of the solved diameter is at least (sqrt 3 / 2)
times the requested safety factor (about 0.866 sf), with the sentinel top
when both loads are zero; the requested factor itself is attained exactly
only at zero torque. -/
theorem roundtrip_safety_bound (torque bending_moment : ℝ) (mat : MaterialProps)
    (sf : ℝ) (hT : 0 ≤ torque) (hM : 0 ≤ bending_moment)
    (hy : 0 < mat.yield_strength) (hsf : 0 < sf) :
    ((Real.sqrt 3 / 2 * sf : ℝ) : EReal) ≤
      verify_shaft_diameter
        (calculate_required_diameter torque bending_moment 0 mat sf 0)
        0 torque bending_moment 0 mat := by
  by_cases hpos : 0 < bending_moment ^ 2 + (0.75 * torque) ^ 2
  · rw [roundtrip_solid_value torque bending_moment mat sf hT hM hy hsf hpos]
    rw [EReal.coe_le_coe_iff]
    have h43 : 0 < 4 * bending_moment ^ 2 + 3 * torque ^ 2 := by nlinarith
    have hS : 0 < Real.sqrt (4 * bending_moment ^ 2 + 3 * torque ^ 2) :=
      Real.sqrt_pos.mpr h43
    have h16 : Real.sqrt 16 = 4 := by
      rw [show (16 : ℝ) = 4 ^ 2 by norm_num, Real.sqrt_sq (by norm_num)]
    have hkey : Real.sqrt 3 * Real.sqrt (4 * bending_moment ^ 2 + 3 * torque ^ 2)
        ≤ 4 * Real.sqrt (bending_moment ^ 2 + (0.75 * torque) ^ 2) := by
      rw [← Real.sqrt_mul (by norm_num : (0:ℝ) ≤ 3), ← h16,
        ← Real.sqrt_mul (by norm_num : (0:ℝ) ≤ 16)]
      apply Real.sqrt_le_sqrt
      nlinarith [sq_nonneg bending_moment]
    rw [le_div_iff hS]
    nlinarith [mul_le_mul_of_nonneg_left hkey (le_of_lt (half_pos hsf))]
  · have hM0 : bending_moment = 0 := by
      nlinarith [sq_nonneg bending_moment, sq_nonneg (0.75 * torque)]
    have hT0 : torque = 0 := by
      nlinarith [sq_nonneg bending_moment, sq_nonneg (0.75 * torque)]
    subst hM0
    subst hT0
    have hcalc : calculate_required_diameter 0 0 0 mat sf 0 = 0 := by
      simp only [calculate_required_diameter, if_true]
      rw [show ((0:ℝ) ^ 2 + (0.75 * 0) ^ 2) = 0 by norm_num, Real.sqrt_zero]
      rw [show (32 * (0:ℝ)) / (Real.pi * (mat.yield_strength / sf)) = 0 by
        rw [mul_zero, zero_div]]
      rw [Real.zero_rpow (by norm_num : ((1:ℝ)/3) ≠ 0), zero_mul]
    rw [hcalc]
    have hver : verify_shaft_diameter 0 0 0 0 0 mat = ⊤ := by
      simp only [verify_shaft_diameter]
      norm_num
    rw [hver]
    exact le_top

/-- C1 amended, witness: the lower bound instantiated at torque 1000,
bending moment 500, AISI 1045, safety factor 2. -/
theorem roundtrip_safety_bound_witness :
    ((Real.sqrt 3 / 2 * 2 : ℝ) : EReal) ≤
      verify_shaft_diameter (calculate_required_diameter 1000 500 0 AISI1045 2 0)
        0 1000 500 0 AISI1045 :=
  roundtrip_safety_bound 1000 500 AISI1045 2 (by norm_num) (by norm_num)
    (by norm_num [AISI1045]) (by norm_num)

theorem calc_example_lower : (38.9 : ℝ) < calculate_required_diameter 1000 500 0 AISI1045 2 0 := by
  have hs1 : (901.38 : ℝ) < Real.sqrt ((500 : ℝ) ^ 2 + (0.75 * 1000) ^ 2) := by
    rw [show ((500 : ℝ) ^ 2 + (0.75 * 1000) ^ 2) = 812500 by norm_num]
    have h := Real.sqrt_lt_sqrt (by norm_num : (0:ℝ) ≤ 901.38 ^ 2)
      (show ((901.38 : ℝ) ^ 2) < 812500 by norm_num)
    rwa [Real.sqrt_sq (by norm_num)] at h
  have hπ2 : Real.pi < 3.141593 := Real.pi_lt_3141593
  simp only [calculate_required_diameter, if_true, AISI1045]
  have hr : (0.0389 : ℝ) ^ (3:ℕ) <
      (32 * Real.sqrt ((500 : ℝ) ^ 2 + (0.75 * 1000) ^ 2)) / (Real.pi * (310e6 / 2)) := by
    rw [lt_div_iff (by positivity)]
    nlinarith [hs1, hπ2, Real.pi_pos]
  have h := lt_rpow_third (by positivity) (by norm_num) hr
  nlinarith [h]

theorem calc_example_upper : calculate_required_diameter 1000 500 0 AISI1045 2 0 < 39.1 := by
  have hs2 : Real.sqrt ((500 : ℝ) ^ 2 + (0.75 * 1000) ^ 2) < 901.39 := by
    rw [show ((500 : ℝ) ^ 2 + (0.75 * 1000) ^ 2) = 812500 by norm_num]
    have h := Real.sqrt_lt_sqrt (by norm_num : (0:ℝ) ≤ 812500)
      (show (812500 : ℝ) < 901.39 ^ 2 by norm_num)
    rwa [Real.sqrt_sq (by norm_num)] at h
  have hπ1 : (3.141592 : ℝ) < Real.pi := Real.pi_gt_3141592
  simp only [calculate_required_diameter, if_true, AISI1045]
  have hr : (32 * Real.sqrt ((500 : ℝ) ^ 2 + (0.75 * 1000) ^ 2)) / (Real.pi * (310e6 / 2))
      < (0.0391 : ℝ) ^ (3:ℕ) := by
    rw [div_lt_iff (by positivity)]
    nlinarith [hs2, hπ1, Real.sqrt_nonneg ((500 : ℝ) ^ 2 + (0.75 * 1000) ^ 2)]
  have h := rpow_third_lt (by positivity) (by norm_num) hr
  nlinarith [h]

/-- C4 amended: at torque 1000, bending moment 500, AISI 1045 and safety
factor 2, the solid-shaft closed form returns between 38.9 and 39.1 mm,
i.e. d is approximately 0.0390 m = 39.0 mm (M_eq ~ 901.39 and allowable
stress 155 MPa are as the claim states). -/
theorem solid_example_bounds :
    (38.9 : ℝ) < calculate_required_diameter 1000 500 0 AISI1045 2 0 ∧
    calculate_required_diameter 1000 500 0 AISI1045 2 0 < 39.1 :=
  ⟨calc_example_lower, calc_example_upper⟩

/-- C4 counterexample: the returned diameter differs from the claimed
39.6 mm by more than 0.4 mm (it is below 39.1 mm), so the claimed value
0.0396 m / 39.6 mm is not the value the code computes. -/
theorem solid_example_not_39_6 :
    (0.4 : ℝ) < |calculate_required_diameter 1000 500 0 AISI1045 2 0 - 39.6| := by
  have h := calc_example_upper
  rw [abs_of_neg (by linarith)]
  linarith

end ShaftGear
